import Mathlib

/-!
Shallow embedding of the mission scoring/ranking engine of the
"Cosmic Research Helper" single-page application.

Modelling conventions:

* JavaScript numbers are modelled as exact rationals (`ℚ`).  A JavaScript
  value that may be `NaN` (the result of `Number(cell)` on a malformed cell,
  or of an out-of-range array read) is modelled as `Option ℚ`, with `none`
  playing the role of `NaN`/`undefined`.  The JavaScript idiom `x || 0`
  (which maps `NaN`, `undefined` and `0` itself to `0`) is `orZero`.
* Ordinary objects used as string-keyed maps are modelled as functions into
  `Option` (absent key = `none`); the raw cells of a CSV row are modelled as
  the `List (Option ℚ)` of their `Number`-conversions.
* `Array.prototype.sort` is stable in ECMAScript; it is modelled by
  `List.mergeSort` with the boolean "comparator result ≤ 0" relation.
-/

/-- The four research tiers `I, II, III, IV` of the engine. -/
inductive Tier where
  | I
  | II
  | III
  | IV
deriving DecidableEq, Fintype, Repr

/-- Index of a tier in the `tiers` array of the source. -/
def Tier.idx : Tier → ℕ
  | .I => 0
  | .II => 1
  | .III => 2
  | .IV => 3

/-- JavaScript `x || 0` applied to a possibly-`NaN`/`undefined` number:
`NaN`, `undefined` and `0` all become `0`, every other number is kept. -/
def orZero (x : Option ℚ) : ℚ := x.getD 0

/-- `Number(row[i])`: reading past the end of a row gives `Number(undefined) = NaN`,
modelled as `none`. -/
def jsCell (row : List (Option ℚ)) (i : ℕ) : Option ℚ := row.getD i none

/-- A mission with all relevant display data (interface `MissionDisplay`). -/
structure MissionDisplay where
  id : ℕ
  name : String
  cosmocredits : ℚ
  lunarcredits : ℚ
  research1 : ℚ
  research2 : ℚ
  research3 : ℚ
  research4 : ℚ
  jobAbbreviation : String
  missionClass : ℕ
  isCritical : Bool

/-- Research values for different tiers and levels (interface `ResearchValues`).
Entries are `Option ℚ` because `parseCosmoToolData` stores the raw result of
`Number` on each cell, which is `NaN` (`none`) for a malformed cell. -/
structure ResearchValues where
  required : Tier → List (Option ℚ)
  max : Tier → List (Option ℚ)

/-- A per-mission progress annotation `{ rank, time }`.  The `rank` property can
be absent at runtime (the time-edit handler builds records without it), so it
is modelled as `Option String`. -/
structure Progress where
  rank : Option String
  time : ℚ
deriving DecidableEq, Repr

/-- The default progress annotation, rank bronze with time 1. -/
def defaultProgress : Progress := { rank := some "bronze", time := 1 }

/-- All inputs of the `MissionTable` scoring computation: the requirement
catalog, the current research counts and level of the active job, the per-mission
progress map and the global data-analysis rate. -/
structure ScoreEnv where
  researchValues : ResearchValues
  research : Tier → Option ℚ
  level : ℕ
  missionProgress : ℕ → Option Progress
  dataRate : ℚ

/-- `researchValues.required[tier][level - 1] || 0` (and likewise for `max`):
the table read used by `MissionTable`, coercing a missing or `NaN` entry to 0. -/
def tableAt (l : List (Option ℚ)) (level : ℕ) : ℚ := orZero (l.getD (level - 1) none)

/-- `research[tier] || 0`: the current count for a tier, 0 when absent. -/
def currentOf (env : ScoreEnv) (t : Tier) : ℚ := orZero (env.research t)

/-- `remainingRequired[tier] = Math.max(req - current, 0)`. -/
def remainingRequired (env : ScoreEnv) (t : Tier) : ℚ :=
  max (tableAt (env.researchValues.required t) env.level - currentOf env t) 0

/-- `remainingMax[tier] = Math.max(Math.min(maxVal - current, maxVal - req), 0)`. -/
def remainingMax (env : ScoreEnv) (t : Tier) : ℚ :=
  max (min (tableAt (env.researchValues.max t) env.level - currentOf env t)
           (tableAt (env.researchValues.max t) env.level
             - tableAt (env.researchValues.required t) env.level)) 0

/-- `Math.max(...Object.values(remainingRequired), 1)`. -/
def maxRemainingRequired (env : ScoreEnv) : ℚ :=
  max (max (max (max (remainingRequired env .I) (remainingRequired env .II))
    (remainingRequired env .III)) (remainingRequired env .IV)) 1

/-- `Math.max(...Object.values(remainingMax), 1)`. -/
def maxRemainingMax (env : ScoreEnv) : ℚ :=
  max (max (max (max (remainingMax env .I) (remainingMax env .II))
    (remainingMax env .III)) (remainingMax env .IV)) 1

/-- `totalImportance[i + 1] = importanceRequired + 0.05 * importanceMax`, where
`importanceRequired = remainingRequired[tier] / maxRemainingRequired` and
`importanceMax = remainingMax[tier] / maxRemainingMax`. -/
def totalImportance (env : ScoreEnv) (t : Tier) : ℚ :=
  remainingRequired env t / maxRemainingRequired env
    + 0.05 * (remainingMax env t / maxRemainingMax env)

/-- The object literal `{ none: 0, bronze: 1, silver: 4, gold: 5 }`: property
lookup yields `undefined` (`none`) for every other key. -/
def rankMultipliers (r : String) : Option ℚ :=
  if r = "none" then some 0
  else if r = "bronze" then some 1
  else if r = "silver" then some 4
  else if r = "gold" then some 5
  else none

/-- `multipliers[progress.rank] ?? 1`: an absent `rank` property indexes the
object with `undefined`, and any unrecognized rank string yields `undefined`;
both fall back to 1 through `??`. -/
def progressBonus (p : Progress) : ℚ :=
  match p.rank with
  | some r => (rankMultipliers r).getD 1
  | none => 1

/-- `missionProgress[m.id]` with the default annotation substituted when absent. -/
def resolveProgress (env : ScoreEnv) (id : ℕ) : Progress :=
  (env.missionProgress id).getD defaultProgress

/-- One element of the `missionsWithScores` array. -/
structure ScoredMission where
  mission : MissionDisplay
  score : ℚ
  r1 : ℚ
  r2 : ℚ
  r3 : ℚ
  r4 : ℚ
  progress : Progress
  scorePerSecond : ℚ

/-- The per-mission body of `missions.map` in `MissionTable`: resolves the
progress annotation, maps rank to a multiplier, computes the four effective
yields `r1..r4` (note the caps on `r2` and `r3` both read
the tier III remaining requirement, exactly as in the source), the weighted score and
the score per second. -/
def scoreOne (env : ScoreEnv) (m : MissionDisplay) : ScoredMission :=
  let progress := resolveProgress env m.id
  let bonus := progressBonus progress
  let r1 := if m.isCritical then m.research1 else
    min (m.research1 * bonus * ((100 + env.dataRate) / 100))
        (remainingRequired env .I + remainingMax env .I)
  let r2 := if m.isCritical then m.research2 else
    min (m.research2 * bonus * ((100 + env.dataRate) / 100))
        (remainingRequired env .III + remainingMax env .II)
  let r3 := if m.isCritical then m.research3 else
    min (m.research3 * bonus * ((100 + env.dataRate) / 100))
        (remainingRequired env .III + remainingMax env .III)
  let r4 := if m.isCritical then m.research4 else
    min (m.research4 * bonus * ((100 + env.dataRate) / 100))
        (remainingRequired env .IV + remainingMax env .IV)
  let score := r1 * totalImportance env .I + r2 * totalImportance env .II
    + r3 * totalImportance env .III + r4 * totalImportance env .IV
  { mission := m, score := score, r1 := r1, r2 := r2, r3 := r3, r4 := r4,
    progress := progress, scorePerSecond := score / progress.time }

/-- The sort comparator of `missionsWithScores` as a boolean "a may come before
b" relation (comparator result ≤ 0): missions with `time ≠ 1` first, then
descending `scorePerSecond`. -/
def missionLE (a b : ScoredMission) : Bool :=
  if a.progress.time ≠ 1 ∧ b.progress.time = 1 then true
  else if a.progress.time = 1 ∧ b.progress.time ≠ 1 then false
  else decide (b.scorePerSecond ≤ a.scorePerSecond)

/-- `missions.map(...).sort(...)`: the ranked output of `MissionTable`. -/
def missionsWithScores (env : ScoreEnv) (missions : List MissionDisplay) : List ScoredMission :=
  (missions.map (scoreOne env)).mergeSort missionLE

/-- The fixed lookup table of the `DataRate` component. -/
def dataRates : List ℚ := [0, 50, 50, 100, 100, 150, 150, 150, 150, 150, 150, 150]

/-- `Object.values(levels).filter(level => level >= 9).length`: how many
per-job levels (across all jobs) are at least 9.  The map is modelled as an
association list of (job, level) entries. -/
def completedCount (levels : List (String × ℚ)) : ℕ :=
  ((levels.map Prod.snd).filter (fun v => decide ((9 : ℚ) ≤ v))).length

/-- `dataRates[completedTiers] || 0`: an out-of-bounds index reads `undefined`
and falls back to 0. -/
def dataRateOf (levels : List (String × ℚ)) : ℚ :=
  dataRates.getD (completedCount levels) 0

/-- A parsed reward row (interface `MissionReward`, sans the id key).
`researchRewards` is the numeric-keyed object `{1:0, 2:0, 3:0, 4:0}` after the
reward-slot pairs were folded in; only keys 1..4 are ever read back. -/
structure MissionReward where
  cosmocredits : ℚ
  lunarcredits : ℚ
  researchRewards : ℚ → ℚ

/-- One step of the loop `for (const [type, qty] of pairs)`: the guard
`type >= 1 && type <= 4 && !isNaN(qty)` skips a `NaN` type (any comparison
with `NaN` is false) and a `NaN` quantity; otherwise `researchRewards[type] += qty`. -/
def addReward (acc : ℚ → ℚ) : Option ℚ × Option ℚ → (ℚ → ℚ)
  | (some t, some q) =>
      if 1 ≤ t ∧ t ≤ 4 then fun x => if x = t then acc x + q else acc x else acc
  | _ => acc

/-- The body of `parseMissionRewards` for one row: credits via `Number(...) || 0`,
and the three reward-slot pairs at columns (8,9), (11,12), (14,15) folded into
the tier map. -/
def parseMissionReward (row : List (Option ℚ)) : MissionReward :=
  { cosmocredits := orZero (jsCell row 4)
    lunarcredits := orZero (jsCell row 5)
    researchRewards :=
      [(jsCell row 8, jsCell row 9), (jsCell row 11, jsCell row 12),
       (jsCell row 14, jsCell row 15)].foldl addReward (fun _ => 0) }

/-- `parseCosmoToolData`: from the last row of the table, for each tier `i`,
`required[tiers[i]] = lastRow.slice(2 + i*18, 2 + i*18 + 9).map(Number)` and
`max[tiers[i]] = lastRow.slice(10 + i*18, 10 + i*18 + 9).map(Number)`.  The
cells are already modelled post-`Number`, so `slice(...).map(Number)` is
`drop`/`take` on the row; a malformed cell stays `none` (`NaN`) in the output. -/
def parseCosmoToolData (data : List (List (Option ℚ))) : ResearchValues :=
  let lastRow := data.getD (data.length - 1) []
  { required := fun t => (lastRow.drop (2 + t.idx * 18)).take 9
    max := fun t => (lastRow.drop (10 + t.idx * 18)).take 9 }

/-- The rank-select `onChange` handler:
merges the new rank into the existing record, after substituting the default
annotation (rank bronze, time 1) when no record exists for the mission id. -/
def editRank (mp : ℕ → Option Progress) (id : ℕ) (r : String) : ℕ → Option Progress :=
  fun k => if k = id then some { (mp id).getD defaultProgress with rank := some r } else mp k

/-- The time-input `onChange` handler:
`prev => ({ ...prev, [id]: { ...prev[id], time: t } })` — note the missing
default: spreading an absent `prev[id]` contributes no `rank` property. -/
def editTime (mp : ℕ → Option Progress) (id : ℕ) (t : ℚ) : ℕ → Option Progress :=
  fun k => if k = id then some { rank := (mp id).bind Progress.rank, time := t } else mp k

/-! ## Concrete sample inputs

Small closed instances of the data model, used by the counterexamples and by
the witnesses that instantiate the hypotheses of the theorems below. -/

/-- A requirement catalog in which tier III still demands 100 units at level 1
while every other tier (in particular tier II) is fully exhausted. -/
def envC1 : ScoreEnv :=
  { researchValues :=
      { required := fun t => match t with | .III => [some 100] | _ => [some 0]
        max := fun t => match t with | .III => [some 100] | _ => [some 0] }
    research := fun _ => none
    level := 1
    missionProgress := fun _ => none
    dataRate := 0 }

/-- A non-critical mission whose only reward is 50 units of tier II research. -/
def missionC1 : MissionDisplay :=
  { id := 0, name := "m", cosmocredits := 0, lunarcredits := 0,
    research1 := 0, research2 := 50, research3 := 0, research4 := 0,
    jobAbbreviation := "j", missionClass := 1, isCritical := false }

/-- A catalog whose requirement and cap are already met everywhere: every
remaining value is 0. -/
def envZero : ScoreEnv :=
  { researchValues := { required := fun _ => [some 0], max := fun _ => [some 0] }
    research := fun _ => none
    level := 1
    missionProgress := fun _ => none
    dataRate := 0 }

/-- A generic non-critical mission with nonzero research yields. -/
def missionSample : MissionDisplay :=
  { id := 3, name := "s", cosmocredits := 10, lunarcredits := 0,
    research1 := 40, research2 := 7, research3 := 5, research4 := 2,
    jobAbbreviation := "j", missionClass := 2, isCritical := false }

/-- A critical mission with four distinct base yields. -/
def missionCrit : MissionDisplay :=
  { id := 5, name := "c", cosmocredits := 0, lunarcredits := 9,
    research1 := 11, research2 := 12, research3 := 13, research4 := 14,
    jobAbbreviation := "j", missionClass := 6, isCritical := true }

/-- The example of the specification: tier I requires 100 with cap 150 at
level 1, and the current count is 30. -/
def envEx : ScoreEnv :=
  { researchValues := { required := fun _ => [some 100], max := fun _ => [some 150] }
    research := fun _ => some 30
    level := 1
    missionProgress := fun _ => none
    dataRate := 0 }

/-- A requirement-table row whose cell at index 2 (the first level-1 required
cell of tier I) is malformed, i.e. its `Number` conversion is `NaN`. -/
def rowBad : List (Option ℚ) := [some 1, some 2, none]

/-- The ordering property claimed for the ranked output: a pair (a, b) with a
placed before b satisfies it when a measured mission (time other than 1) never
follows an unmeasured one (time 1), and within the same group the
score-per-second values are non-increasing. -/
def rankedBefore (a b : ScoredMission) : Prop :=
  (a.progress.time = 1 → b.progress.time = 1) ∧
  ((a.progress.time = 1 ↔ b.progress.time = 1) → b.scorePerSecond ≤ a.scorePerSecond)

/-! ## Theorems -/

/-- Claim C1, counterexample: with tier II fully exhausted but tier III still
demanding 100 units, the effective tier II yield of a non-critical mission
(50) strictly exceeds the remaining tier II demand (0), because the source
caps `r2` with the tier III remaining requirement. -/
theorem tier2_cap_reads_tier3 :
    remainingRequired envC1 Tier.II + remainingMax envC1 Tier.II < (scoreOne envC1 missionC1).r2 := by
  simp [remainingRequired, remainingMax, envC1, missionC1, tableAt, currentOf, orZero,
    scoreOne, resolveProgress, progressBonus, defaultProgress, rankMultipliers]

/-- Claim C1, amended: for every non-critical mission the effective yields of
tiers I, III and IV are capped by the remaining demand of the same tier, but
the tier II yield is capped by the tier III remaining requirement plus the
tier II remaining headroom. -/
theorem yield_cap_wiring (env : ScoreEnv) (m : MissionDisplay) (h : m.isCritical = false) :
    (scoreOne env m).r1 ≤ remainingRequired env Tier.I + remainingMax env Tier.I ∧
    (scoreOne env m).r2 ≤ remainingRequired env Tier.III + remainingMax env Tier.II ∧
    (scoreOne env m).r3 ≤ remainingRequired env Tier.III + remainingMax env Tier.III ∧
    (scoreOne env m).r4 ≤ remainingRequired env Tier.IV + remainingMax env Tier.IV := by
  refine ⟨?_, ?_, ?_, ?_⟩ <;> simp [scoreOne, h]

/-- Claim C1, witness: the amended cap bounds evaluated on the concrete
mission and catalog of the counterexample. -/
theorem yield_cap_wiring_witness :
    (scoreOne envC1 missionC1).r1 ≤ remainingRequired envC1 Tier.I + remainingMax envC1 Tier.I ∧
    (scoreOne envC1 missionC1).r2 ≤ remainingRequired envC1 Tier.III + remainingMax envC1 Tier.II ∧
    (scoreOne envC1 missionC1).r3 ≤ remainingRequired envC1 Tier.III + remainingMax envC1 Tier.III ∧
    (scoreOne envC1 missionC1).r4 ≤ remainingRequired envC1 Tier.IV + remainingMax envC1 Tier.IV :=
  yield_cap_wiring envC1 missionC1 rfl

/-- Claim C2, counterexample: with 12 jobs at level 9 the completed count is
12, which indexes past the end of the rate table, so the data rate is 0 and
not 150 — the count is not clamped to the table bounds. -/
theorem dataRate_not_clamped :
    completedCount (List.replicate 12 ("JOB", (9 : ℚ))) = 12 ∧
    dataRateOf (List.replicate 12 ("JOB", (9 : ℚ))) = 0 := by
  constructor <;> decide

/-- Claim C2, amended: the data-rate derivation counts the per-job levels that
are at least 9 across all jobs and maps the count through the fixed table; a
count within the table bounds reads the table entry (a count of exactly 11
gives 150), while every count of 12 or more falls outside the table and
produces 0. -/
theorem dataRate_table (levels : List (String × ℚ)) :
    (∀ h : completedCount levels < dataRates.length,
      dataRateOf levels = dataRates.get ⟨completedCount levels, h⟩) ∧
    (dataRates.length ≤ completedCount levels → dataRateOf levels = 0) ∧
    (completedCount levels = 11 → dataRateOf levels = 150) := by
  refine ⟨?_, ?_, ?_⟩
  · intro h
    simp [dataRateOf, List.getD_eq_getElem?_getD, List.getElem?_eq_getElem h]
  · intro h
    simp [dataRateOf, List.getD_eq_getElem?_getD, List.getElem?_eq_none h]
  · intro h
    simp [dataRateOf, h]
    decide

/-- Claim C2, witness: eleven jobs at level 9 give a data rate of 150. -/
theorem dataRate_table_witness :
    dataRateOf (List.replicate 11 ("JOB", (9 : ℚ))) = 150 :=
  (dataRate_table _).2.2 (by decide)

/-- Claim C3: for every mission with `isCritical = true` the effective yield
of each tier equals the base research yield of the mission exactly, for every
catalog, progress map, rank, time and data rate. -/
theorem critical_yield_invariance (env : ScoreEnv) (m : MissionDisplay) (h : m.isCritical = true) :
    (scoreOne env m).r1 = m.research1 ∧ (scoreOne env m).r2 = m.research2 ∧
    (scoreOne env m).r3 = m.research3 ∧ (scoreOne env m).r4 = m.research4 := by
  refine ⟨?_, ?_, ?_, ?_⟩ <;> simp [scoreOne, h]

/-- Claim C3, witness: the invariance evaluated on a concrete critical
mission in a catalog with nonzero remaining demand. -/
theorem critical_yield_invariance_witness :
    (scoreOne envC1 missionCrit).r1 = missionCrit.research1 ∧
    (scoreOne envC1 missionCrit).r2 = missionCrit.research2 ∧
    (scoreOne envC1 missionCrit).r3 = missionCrit.research3 ∧
    (scoreOne envC1 missionCrit).r4 = missionCrit.research4 :=
  critical_yield_invariance envC1 missionCrit rfl

/-- Claim C4: when the requirement table holds the values `req` and `maxv` for
a tier at the current level and the current count is `cur`, the engine
computes `remainingRequired = max(req - cur, 0)` and
`remainingMax = max(min(maxv - cur, maxv - req), 0)`. -/
theorem remaining_formulas (env : ScoreEnv) (t : Tier) (req maxv cur : ℚ)
    (hreq : (env.researchValues.required t).getD (env.level - 1) none = some req)
    (hmax : (env.researchValues.max t).getD (env.level - 1) none = some maxv)
    (hcur : env.research t = some cur) :
    remainingRequired env t = max (req - cur) 0 ∧
    remainingMax env t = max (min (maxv - cur) (maxv - req)) 0 := by
  have hreq2 : (env.researchValues.required t)[env.level - 1]?.getD none = some req := by
    simpa [List.getD_eq_getElem?_getD] using hreq
  have hmax2 : (env.researchValues.max t)[env.level - 1]?.getD none = some maxv := by
    simpa [List.getD_eq_getElem?_getD] using hmax
  constructor <;>
    simp [remainingRequired, remainingMax, tableAt, currentOf, orZero, hreq2, hmax2, hcur]

/-- Claim C4, witness: required 100, cap 150 and current count 30 give
remaining required 70 and remaining headroom 50. -/
theorem remaining_formulas_witness :
    remainingRequired envEx Tier.I = 70 ∧ remainingMax envEx Tier.I = 50 := by
  have h := remaining_formulas envEx Tier.I 100 150 30 rfl rfl rfl
  refine ⟨h.1.trans (by norm_num), h.2.trans (by norm_num)⟩

/-- Claim C5: the importance weight of a tier is its remaining requirement
divided by the maximum remaining requirement over all tiers floored at 1,
plus 0.05 times its remaining headroom divided by the maximum remaining
headroom over all tiers floored at 1; both denominators are at least 1 (so no
division by zero occurs even when every remaining value is 0) and dominate
the corresponding per-tier values. -/
theorem importance_formula (env : ScoreEnv) (t : Tier) :
    totalImportance env t =
      remainingRequired env t / maxRemainingRequired env
        + 0.05 * (remainingMax env t / maxRemainingMax env) ∧
    1 ≤ maxRemainingRequired env ∧ 1 ≤ maxRemainingMax env ∧
    (∀ u, remainingRequired env u ≤ maxRemainingRequired env) ∧
    (∀ u, remainingMax env u ≤ maxRemainingMax env) := by
  refine ⟨rfl, le_max_right _ _, le_max_right _ _, ?_, ?_⟩ <;>
    intro u <;> cases u <;> simp [maxRemainingRequired, maxRemainingMax, le_max_iff]

/-- The comparator relation is total: for any two scored missions at least one
of the two orders is allowed. -/
theorem missionLE_total (a b : ScoredMission) : (missionLE a b || missionLE b a) = true := by
  by_cases ha : a.progress.time = 1 <;> by_cases hb : b.progress.time = 1 <;>
    simp [missionLE, ha, hb] <;> exact le_total _ _

/-- The comparator relation is transitive. -/
theorem missionLE_trans (a b c : ScoredMission) :
    missionLE a b = true → missionLE b c = true → missionLE a c = true := by
  by_cases ha : a.progress.time = 1 <;> by_cases hb : b.progress.time = 1 <;>
    by_cases hc : c.progress.time = 1 <;>
    simp [missionLE, ha, hb, hc] <;> exact fun h1 h2 => le_trans h2 h1

/-- A pair allowed by the comparator satisfies the claimed ordering
property. -/
theorem missionLE_rankedBefore (a b : ScoredMission) (h : missionLE a b = true) :
    rankedBefore a b := by
  unfold missionLE at h
  by_cases ha : a.progress.time = 1 <;> by_cases hb : b.progress.time = 1 <;>
    simp [ha, hb, rankedBefore] at h ⊢ <;> exact h

/-- Claim C6: in the ranked output every mission whose time differs from 1 is
ordered before every mission whose time equals 1, within each of the two
groups the score-per-second values are non-increasing, and the output is a
permutation of the scored missions. -/
theorem ranked_output_order (env : ScoreEnv) (missions : List MissionDisplay) :
    List.Pairwise rankedBefore (missionsWithScores env missions) ∧
    (missionsWithScores env missions).Perm (missions.map (scoreOne env)) := by
  constructor
  · exact (List.sorted_mergeSort missionLE_trans missionLE_total _).imp
      (fun h => missionLE_rankedBefore _ _ h)
  · exact List.mergeSort_perm _ _

/-- Claim C7: when every remaining requirement and every remaining headroom is
0, every importance weight is 0 and the score of every mission (critical or
not) is 0. -/
theorem zero_remaining_zero_score (env : ScoreEnv)
    (hr : ∀ t, remainingRequired env t = 0) (hm : ∀ t, remainingMax env t = 0)
    (m : MissionDisplay) :
    (∀ t, totalImportance env t = 0) ∧ (scoreOne env m).score = 0 := by
  have himp : ∀ t, totalImportance env t = 0 := by
    intro t
    simp [totalImportance, hr, hm]
  exact ⟨himp, by simp [scoreOne, himp]⟩

/-- Claim C7, witness: in a catalog with every remaining value 0, a mission
with nonzero base yields scores 0. -/
theorem zero_remaining_zero_score_witness : (scoreOne envZero missionSample).score = 0 :=
  (zero_remaining_zero_score envZero
    (by intro t; simp [remainingRequired, envZero, tableAt, currentOf, orZero])
    (by intro t; simp [remainingMax, envZero, tableAt, currentOf, orZero])
    missionSample).2

/-- Claim C8: a mission with no progress entry resolves to the default
annotation (rank bronze, time 1); the rank-to-multiplier mapping sends none to
0, bronze to 1, silver to 4 and gold to 5; and every rank string outside these
four is mapped to multiplier 1 rather than causing a failure. -/
theorem progress_defaults (env : ScoreEnv) (id : ℕ) (h : env.missionProgress id = none) :
    resolveProgress env id = { rank := some "bronze", time := 1 } ∧
    progressBonus { rank := some "none", time := 1 } = 0 ∧
    progressBonus { rank := some "bronze", time := 1 } = 1 ∧
    progressBonus { rank := some "silver", time := 1 } = 4 ∧
    progressBonus { rank := some "gold", time := 1 } = 5 ∧
    (∀ (r : String) (t : ℚ), r ≠ "none" → r ≠ "bronze" → r ≠ "silver" → r ≠ "gold" →
      progressBonus { rank := some r, time := t } = 1) := by
  refine ⟨by simp [resolveProgress, h, defaultProgress], rfl, rfl, rfl, rfl, ?_⟩
  intro r t h1 h2 h3 h4
  simp [progressBonus, rankMultipliers, h1, h2, h3, h4]

/-- Claim C8, witness: the empty progress map resolves mission 0 to the
default annotation. -/
theorem progress_defaults_witness :
    resolveProgress envZero 0 = { rank := some "bronze", time := 1 } :=
  (progress_defaults envZero 0 rfl).1

/-- Claim C9, counterexample: parsing a requirement table whose first tier I
required cell is malformed produces a catalog entry that is the `NaN` marker,
not the number 0 — the coercion to 0 does not happen in the produced
catalog. -/
theorem required_entry_not_coerced :
    (parseCosmoToolData [rowBad]).required Tier.I = [none] ∧
    (parseCosmoToolData [rowBad]).required Tier.I ≠ [some 0] := by
  constructor <;> decide

/-- A reward-slot pair whose quantity is `NaN` leaves the reward map
unchanged. -/
theorem addReward_skips_nan_qty (acc : ℚ → ℚ) (x : Option ℚ) : addReward acc (x, none) = acc := by
  cases x <;> rfl

/-- Claim C9, amended: reward normalization coerces malformed cells to 0 (the
credit fields become 0 when their source cell is malformed, and malformed
reward quantities are skipped, leaving every reward tier at 0), while the
required and max arrays produced from the requirement table keep the raw
`NaN` marker for a malformed cell; the coercion of those entries to 0 happens
at every read of the catalog, not during normalization — and no input ever
raises. -/
theorem normalization_coercion (row : List (Option ℚ)) (env : ScoreEnv) (t : Tier) :
    (jsCell row 4 = none → (parseMissionReward row).cosmocredits = 0) ∧
    (jsCell row 5 = none → (parseMissionReward row).lunarcredits = 0) ∧
    (jsCell row 9 = none → jsCell row 12 = none → jsCell row 15 = none →
      ∀ x, (parseMissionReward row).researchRewards x = 0) ∧
    ((env.researchValues.required t).getD (env.level - 1) none = none →
      tableAt (env.researchValues.required t) env.level = 0) ∧
    ((env.researchValues.max t).getD (env.level - 1) none = none →
      tableAt (env.researchValues.max t) env.level = 0) := by
  refine ⟨?_, ?_, ?_, ?_, ?_⟩
  · intro h
    simp [parseMissionReward, h, orZero]
  · intro h
    simp [parseMissionReward, h, orZero]
  · intro h9 h12 h15 x
    simp [parseMissionReward, h9, h12, h15, addReward_skips_nan_qty]
  · intro h
    simp only [tableAt]
    simp [List.getD_eq_getElem?_getD] at h
    simp [List.getD_eq_getElem?_getD, h, orZero]
  · intro h
    simp only [tableAt]
    simp [List.getD_eq_getElem?_getD] at h
    simp [List.getD_eq_getElem?_getD, h, orZero]

/-- Claim C9, witness: a fully missing reward row parses to 0 credits and a 0
reward for tier 1. -/
theorem normalization_coercion_witness :
    (parseMissionReward []).cosmocredits = 0 ∧
    (parseMissionReward []).researchRewards 1 = 0 :=
  ⟨(normalization_coercion [] envZero Tier.I).1 rfl,
   (normalization_coercion [] envZero Tier.I).2.2.1 rfl rfl rfl 1⟩

/-- Replacing the progress map leaves the remaining requirement unchanged. -/
theorem remainingRequired_update_mp (env : ScoreEnv) (mp : ℕ → Option Progress) (t : Tier) :
    remainingRequired { env with missionProgress := mp } t = remainingRequired env t := rfl

/-- Replacing the progress map leaves the remaining headroom unchanged. -/
theorem remainingMax_update_mp (env : ScoreEnv) (mp : ℕ → Option Progress) (t : Tier) :
    remainingMax { env with missionProgress := mp } t = remainingMax env t := rfl

/-- Replacing the progress map leaves the importance weights unchanged. -/
theorem totalImportance_update_mp (env : ScoreEnv) (mp : ℕ → Option Progress) (t : Tier) :
    totalImportance { env with missionProgress := mp } t = totalImportance env t := rfl

/-- Claim C10: editing the time of a mission with no existing progress entry
produces a record with the new time and no rank property (while the rank-edit
handler inserts the bronze default before merging); the scoring engine maps
the absent rank to multiplier 1, so the mission receives exactly the score
and score-per-second it would receive with rank bronze and the same time. -/
theorem time_edit_drops_rank (env : ScoreEnv) (id : ℕ) (t : ℚ) (r : String)
    (h : env.missionProgress id = none) :
    editTime env.missionProgress id t id = some { rank := none, time := t } ∧
    editRank env.missionProgress id r id = some { rank := some r, time := 1 } ∧
    progressBonus { rank := none, time := t } = 1 ∧
    (∀ m : MissionDisplay, m.id = id →
      (scoreOne { env with missionProgress := editTime env.missionProgress id t } m).score =
        (scoreOne { env with missionProgress := fun k =>
          if k = id then (some { rank := some "bronze", time := t })
          else env.missionProgress k } m).score ∧
      (scoreOne { env with missionProgress := editTime env.missionProgress id t } m).scorePerSecond =
        (scoreOne { env with missionProgress := fun k =>
          if k = id then (some { rank := some "bronze", time := t })
          else env.missionProgress k } m).scorePerSecond) := by
  refine ⟨by simp [editTime, h], by simp [editRank, h, defaultProgress], rfl, ?_⟩
  intro m hm
  constructor <;>
    simp [scoreOne, resolveProgress, editTime, hm, h, progressBonus, rankMultipliers,
      remainingRequired_update_mp, remainingMax_update_mp, totalImportance_update_mp]

/-- Claim C10, witness: editing the time of mission 3 in an empty progress map
yields a rank-less record with time 7, and the sample mission is scored as if
its rank were bronze. -/
theorem time_edit_drops_rank_witness :
    editTime envZero.missionProgress 3 7 3 = some { rank := none, time := 7 } ∧
    (scoreOne { envZero with missionProgress := editTime envZero.missionProgress 3 7 }
        missionSample).score =
      (scoreOne { envZero with missionProgress := fun k =>
        if k = 3 then (some { rank := some "bronze", time := 7 })
        else envZero.missionProgress k } missionSample).score := by
  have h := time_edit_drops_rank envZero 3 7 "gold" rfl
  exact ⟨h.1, (h.2.2.2 missionSample rfl).1⟩
